import Mathlib

/-!
Verification development for the conversational data-analysis agent
(src/conversational_agent.py).  The tool-calling orchestrator
(ConversationalAnalysisAgent) is shallowly embedded: pandas tables become
lists of records, JSON values become an inductive type, a raised Python
exception becomes the error side of an Except, and the LLM completion
service is modelled as a script of responses consumed in order.  Rates that
the source computes as floating-point means are carried as exact
numerator/denominator pairs of naturals; ordering by such a pair under
cross-multiplication coincides with ordering by the rational mean because
every compared group has a positive row count.
-/

namespace AgentModel

/-- JSON-like values: tool inputs, tool outputs and payload dictionaries.
An object is an insertion-ordered association list, as a Python dict is. -/
inductive JValue where
  | str (s : String)
  | int (n : Int)
  | rat (num : Int) (den : Nat)
  | bool (b : Bool)
  | null
  | arr (items : List JValue)
  | obj (fields : List (String × JValue))

/-- Python exceptions that the dispatcher code can raise.  The source has no
try/except around tool execution, so these propagate. -/
inductive PyError where
  | keyError (key : String)
  | typeError (msg : String)
deriving DecidableEq

/-- Row of the orders table (columns used by the source). -/
structure OrderRow where
  order_id : Nat
  user_id : Nat
deriving DecidableEq

/-- Row of the order-products table.  The reordered column is only read when
Datasets.hasReordered is true, mirroring the column-presence test in the
source. -/
structure OrderProductRow where
  order_id : Nat
  product_id : Nat
  reordered : Nat
deriving DecidableEq

/-- Row of the products table. -/
structure ProductRow where
  product_id : Nat
  product_name : String
  department_id : Nat
deriving DecidableEq

/-- Row of the departments table. -/
structure DepartmentRow where
  department_id : Nat
  department : String
deriving DecidableEq

/-- The loaded tables (self.datasets).  departments is optional because the
source tests membership of the departments key; order_products stands for
the table picked by the order_products__train / order_products fallback and
is assumed present, as every operation in the source assumes.  hasReordered
models the test for the reordered column.  timestamp models the
datetime.now clock reading that only feeds the visualization filename. -/
structure Datasets where
  orders : List OrderRow
  order_products : List OrderProductRow
  products : List ProductRow
  departments : Option (List DepartmentRow)
  hasReordered : Bool
  timestamp : String

/-- Lowercased character sequence of a string, for case-insensitive match. -/
def lowerChars (s : String) : List Char := s.data.map Char.toLower

/-- Substring test on character lists. -/
def containsSub (p l : List Char) : Bool :=
  List.isPrefixOf p l ||
    match l with
    | [] => false
    | _ :: rest => containsSub p rest

/-- Case-insensitive containment, modelling
str.contains(pattern, case=False, na=False).  The source leaves regex=True,
so a pattern with regex metacharacters is treated specially there; patterns
are modelled as literal text, which agrees on plain names. -/
def containsCI (pattern s : String) : Bool :=
  containsSub (lowerChars pattern) (lowerChars s)

/-- pandas DataFrame.head: a nonnegative n takes the first n rows, a
negative n drops the last (-n) rows. -/
def pdHead (n : Int) (l : List α) : List α :=
  if 0 ≤ n then l.take n.toNat else l.take (l.length - (-n).toNat)

/-- Comparison by count for value-counts ordering (descending). -/
def countGE (a b : String × Nat) : Prop := b.2 ≤ a.2

instance : DecidableRel countGE := fun a b => inferInstanceAs (Decidable (b.2 ≤ a.2))

instance : IsTotal (String × Nat) countGE := ⟨fun a b => le_total b.2 a.2⟩

instance : IsTrans (String × Nat) countGE := ⟨fun _ _ _ h1 h2 => le_trans h2 h1⟩

/-- pandas Series.value_counts on a list of names: distinct values in first
occurrence order, stably sorted by count descending.  The tie order among
equal counts inside pandas is implementation defined; this model fixes a
deterministic one, which no claim depends on. -/
def valueCounts (names : List String) : List (String × Nat) :=
  List.insertionSort countGE (names.eraseDups.map (fun n => (n, names.count n)))

/-- Dictionary payload carrying an error message, the shape every operation
in the source uses for a domain failure. -/
def errObj (msg : String) : JValue := JValue.obj [("error", JValue.str msg)]

/-- Python equality test of a JSON value against a string literal: equality
never raises and only a string can compare equal. -/
def jEqStr (v : JValue) (s : String) : Bool :=
  match v with
  | JValue.str t => t = s
  | _ => false

/-- Python truthiness of a JSON value. -/
def pyTruthy (v : JValue) : Bool :=
  match v with
  | JValue.str s => s ≠ ""
  | JValue.int n => n ≠ 0
  | JValue.rat num _ => num ≠ 0
  | JValue.bool b => b
  | JValue.null => false
  | JValue.arr l => !l.isEmpty
  | JValue.obj l => !l.isEmpty

/-- Python str() of a value, used only inside interpolated messages and the
visualization filename; numeric and structured formatting is approximate. -/
def pyStr (v : JValue) : String :=
  match v with
  | JValue.str s => s
  | JValue.int n => toString n
  | JValue.rat num den => toString num ++ "/" ++ toString den
  | JValue.bool b => if b then "True" else "False"
  | JValue.null => "None"
  | JValue.arr _ => "list"
  | JValue.obj _ => "dict"

/-- Association-list lookup, modelling dict.get(key) (first binding wins;
a Python dict has unique keys). -/
def pyLookup (l : List (String × JValue)) (k : String) : Option JValue :=
  (l.find? (fun p => p.1 = k)).map (fun p => p.2)

/-- dict.get(key, default). -/
def pyGetD (l : List (String × JValue)) (k : String) (dv : JValue) : JValue :=
  (pyLookup l k).getD dv

/-- dict[key]: raises KeyError when the key is absent. -/
def getItem (l : List (String × JValue)) (k : String) : Except PyError JValue :=
  match pyLookup l k with
  | some v => Except.ok v
  | none => Except.error (PyError.keyError k)

/-- One step of Python dict insertion: an existing key keeps its position
and takes the new value, a fresh key is appended. -/
def pyDictIns (acc : List (String × α)) (k : String) (v : α) : List (String × α) :=
  if acc.any (fun p => p.1 = k) then
    acc.map (fun p => if p.1 = k then (k, v) else p)
  else acc ++ [(k, v)]

/-- Folding dict insertion over a list of bindings. -/
def pyDictAux (acc : List (String × α)) : List (String × α) → List (String × α)
  | [] => acc
  | p :: rest => pyDictAux (pyDictIns acc p.1 p.2) rest

/-- Building a Python dict from bindings in order. -/
def pyDict (l : List (String × α)) : List (String × α) := pyDictAux [] l

/-- Message for the pandas isin failure caused by source line 278: the
expression order_products[...]["order_id"].unique lacks call parentheses,
so the bound method object itself is passed to isin, which raises. -/
def pandasIsinMsg : String :=
  "only list-like objects are allowed to be passed to isin(), you passed a [method]"

/-- Message for str.contains receiving a non-string pattern. -/
def strContainsMsg : String :=
  "first argument must be string or compiled pattern"

/-- Message for DataFrame.head receiving a non-integer argument. -/
def headMsg : String :=
  "cannot do positional indexing with a non-integer indexer"

/-- product_name of a product id after a left merge with the products
table.  pandas yields NaN for an unmatched id and the subsequent dict keys
on that NaN; the model uses the fixed string nan for that case. -/
def nameOf (d : Datasets) (pid : Nat) : String :=
  match d.products.find? (fun p => p.product_id == pid) with
  | some p => p.product_name
  | none => "nan"

/-- Left merge of the order-products rows with the products table: each row
paired with its product record when one exists (product ids are unique in
the products table of this dataset). -/
def mergedProducts (d : Datasets) : List (Option ProductRow) :=
  d.order_products.map (fun r => d.products.find? (fun p => p.product_id == r.product_id))

/-- Product names of all order rows, rows with no product match dropped, as
value_counts drops NaN. -/
def allMergedNames (d : Datasets) : List String :=
  (mergedProducts d).filterMap (fun o => o.map (fun p => p.product_name))

/-- Product names of the order rows whose department matches the filter
pattern case-insensitively (source: department ids whose department name
contains the pattern, then isin on the merged department_id column). -/
def filteredNames (d : Datasets) (depts : List DepartmentRow) (pattern : String) :
    List String :=
  (mergedProducts d).filterMap (fun o =>
    match o with
    | some p =>
        if p.department_id ∈
            (depts.filter (fun dr => containsCI pattern dr.department)).map
              (fun dr => dr.department_id) then
          some p.product_name
        else none
    | none => none)

/-- Names feeding value_counts in _get_top_products: the department filter
applies only when the argument is a truthy string and the departments table
is loaded (source line 236: if department and departments in datasets). -/
def topNames (d : Datasets) (department : Option JValue) : List String :=
  match department, d.departments with
  | some (JValue.str s), some depts =>
      if s = "" then allMergedNames d else filteredNames d depts s
  | _, _ => allMergedNames d

/-- Result dictionary of _get_top_products for an integer limit. -/
def topJ (d : Datasets) (department : Option JValue) (n : Int) : JValue :=
  JValue.obj
    [("department_filter", department.getD JValue.null),
     ("top_products",
       JValue.obj ((pdHead n (valueCounts (topNames d department))).map
         (fun p => (p.1, JValue.int (p.2 : Int)))))]

/-- Tail of _get_top_products once the department argument is known not to
raise: a non-integer limit raises at head, anything else succeeds. -/
def topProductsChecked (d : Datasets) (department : Option JValue)
    (limit : JValue) : Except PyError JValue :=
  match limit with
  | JValue.int n => Except.ok (topJ d department n)
  | _ => Except.error (PyError.typeError headMsg)

/-- _get_top_products.  A truthy non-string department reaches str.contains
and raises there when the departments table is loaded; a non-integer limit
raises at head.  Both error paths only model the pandas failure of the
source, which performs no input validation of its own. -/
def _get_top_products (d : Datasets) (department : Option JValue) (limit : JValue) :
    Except PyError JValue :=
  match department with
  | some (JValue.str _) | none => topProductsChecked d department limit
  | some v =>
      if pyTruthy v && d.departments.isSome then
        Except.error (PyError.typeError strContainsMsg)
      else topProductsChecked d department limit

/-- Order rows of one user. -/
def userOrderRows (d : Datasets) (uid : Int) : List OrderRow :=
  d.orders.filter (fun r => (r.user_id : Int) == uid)

/-- Item rows of the orders of one user. -/
def userItems (d : Datasets) (uid : Int) : List OrderProductRow :=
  d.order_products.filter
    (fun r => r.order_id ∈ (userOrderRows d uid).map (fun o => o.order_id))

/-- Product names of the item rows of one user, unmatched ids dropped as
value_counts drops NaN. -/
def userItemNames (d : Datasets) (uid : Int) : List String :=
  (userItems d uid).filterMap (fun r =>
    (d.products.find? (fun p => p.product_id == r.product_id)).map
      (fun p => p.product_name))

/-- Success dictionary of _get_user_orders (source lines 203-209). -/
def userOrdersJ (d : Datasets) (uid : Int) : JValue :=
  JValue.obj
    [("user_id", JValue.int uid),
     ("total_orders", JValue.int (userOrderRows d uid).length),
     ("total_items", JValue.int (userItems d uid).length),
     ("avg_cart_size",
       JValue.rat (userItems d uid).length
         ((userItems d uid).map (fun r => r.order_id)).eraseDups.length),
     ("top_products",
       JValue.obj ((pdHead 10 (valueCounts (userItemNames d uid))).map
         (fun p => (p.1, JValue.int (p.2 : Int)))))]

/-- _get_user_orders.  A non-integer user id equals no row of the integer
user_id column, so the source takes the empty branch for it.  The pandas
mean of an empty groupby (a user whose orders have no item rows) is NaN;
the model carries the raw pair length/0 instead, which no claim touches. -/
def _get_user_orders (d : Datasets) (user_id : JValue) : Except PyError JValue :=
  match user_id with
  | JValue.int uid =>
      if (d.orders.filter (fun r => (r.user_id : Int) == uid)).isEmpty then
        Except.ok (errObj ("No orders found for user " ++ toString uid))
      else Except.ok (userOrdersJ d uid)
  | v => Except.ok (errObj ("No orders found for user " ++ pyStr v))

/-- Order rows whose product matches the pattern (source lines 219-220). -/
def matchingOrders (d : Datasets) (pat : String) : List OrderProductRow :=
  d.order_products.filter (fun r =>
    r.product_id ∈
      ((d.products.filter (fun p => containsCI pat p.product_name)).map
        (fun p => p.product_id)))

/-- Success dictionary of _analyze_product (source lines 221-228): the
order_id column is always present in this dataset, so unique_customers is
the nunique count; reorder_rate is appended only when the reordered column
exists. -/
def analyzeProductJ (d : Datasets) (pat : String) : JValue :=
  JValue.obj
    ([("matching_products",
        JValue.arr
          (((d.products.filter (fun p => containsCI pat p.product_name)).map
            (fun p => p.product_name)).take 10 |>.map JValue.str)),
      ("total_orders", JValue.int (matchingOrders d pat).length),
      ("unique_customers",
        JValue.int ((matchingOrders d pat).map (fun r => r.order_id)).eraseDups.length)]
     ++ (if d.hasReordered then
          [("reorder_rate",
            JValue.rat
              (100 * (((matchingOrders d pat).map (fun r => r.reordered)).sum : Int))
              (matchingOrders d pat).length)]
        else []))

/-- _analyze_product.  The reorder_rate mean is carried as the exact pair
100*sum over count; pandas produces the float and NaN when the count is
zero. -/
def _analyze_product (d : Datasets) (product_name : JValue) : Except PyError JValue :=
  match product_name with
  | JValue.str pat =>
      if (d.products.filter (fun p => containsCI pat p.product_name)).isEmpty then
        Except.ok (errObj ("No products found matching \x27" ++ pat ++ "\x27"))
      else Except.ok (analyzeProductJ d pat)
  | _ => Except.error (PyError.typeError strContainsMsg)

/-- Order rows of the products of one department. -/
def deptOrderRows (d : Datasets) (md : DepartmentRow) : List OrderProductRow :=
  d.order_products.filter (fun r =>
    r.product_id ∈
      (d.products.filter (fun p => p.department_id == md.department_id)).map
        (fun p => p.product_id))

/-- Success dictionary of _analyze_department for the matched department. -/
def analyzeDepartmentJ (d : Datasets) (md : DepartmentRow) : JValue :=
  JValue.obj
    [("department_name", JValue.str md.department),
     ("total_products",
       JValue.int (d.products.filter (fun p => p.department_id == md.department_id)).length),
     ("total_orders", JValue.int (deptOrderRows d md).length),
     ("unique_products_ordered",
       JValue.int ((deptOrderRows d md).map (fun r => r.product_id)).eraseDups.length)]

/-- _analyze_department (source lines 247-267): first matching department
row wins (iloc[0]); products are matched by exact department id. -/
def _analyze_department (d : Datasets) (department_name : JValue) :
    Except PyError JValue :=
  match d.departments with
  | none => Except.ok (errObj "Departments data not available")
  | some depts =>
      match department_name with
      | JValue.str pat =>
          match depts.filter (fun dr => containsCI pat dr.department) with
          | [] =>
              Except.ok (errObj ("No department found matching \x27" ++ pat ++ "\x27"))
          | md :: _ => Except.ok (analyzeDepartmentJ d md)
      | _ => Except.error (PyError.typeError strContainsMsg)

/-- _find_product_pairs (source lines 269-289).  When at least one product
matches, the source reads source line 278:
orders_with_product = order_products[...][\x27order_id\x27].unique
with no call parentheses, binding the method object, and source line 280
then passes that object to isin, which raises TypeError before the limit
or any co-occurrence counting is reached.  So the only non-raising outcome
is the no-match error payload. -/
def _find_product_pairs (d : Datasets) (product_name : JValue) (_limit : JValue) :
    Except PyError JValue :=
  match product_name with
  | JValue.str pat =>
      if (d.products.filter (fun p => containsCI pat p.product_name)).isEmpty then
        Except.ok (errObj ("No products found matching \x27" ++ pat ++ "\x27"))
      else Except.error (PyError.typeError pandasIsinMsg)
  | _ => Except.error (PyError.typeError strContainsMsg)

/-- Reorder aggregation (source line 298): groupby product_id keeps keys in
ascending order; each group is reduced to (product id, sum of reordered,
row count).  The float mean of the source is the rational sum/count. -/
def reorderAgg (d : Datasets) : List (Nat × Nat × Nat) :=
  (List.insertionSort (fun a b : Nat => a ≤ b)
      ((d.order_products.map (fun r => r.product_id)).eraseDups)).map
    (fun pid =>
      (pid,
       ((d.order_products.filter (fun r => r.product_id == pid)).map
         (fun r => r.reordered)).sum,
       (d.order_products.filter (fun r => r.product_id == pid)).length))

/-- Groups with at least 10 rows (source line 299). -/
def reorderFiltered (d : Datasets) : List (Nat × Nat × Nat) :=
  (reorderAgg d).filter (fun g => 10 ≤ g.2.2)

/-- Mean of group a is at least mean of group b, in cross-multiplied form:
for positive counts this is exactly sum_b/count_b <= sum_a/count_a. -/
def meanGE (a b : Nat × Nat × Nat) : Prop := b.2.1 * a.2.2 ≤ a.2.1 * b.2.2

/-- Mean of group a is at most mean of group b. -/
def meanLE (a b : Nat × Nat × Nat) : Prop := a.2.1 * b.2.2 ≤ b.2.1 * a.2.2

instance : DecidableRel meanGE :=
  fun a b => inferInstanceAs (Decidable (b.2.1 * a.2.2 ≤ a.2.1 * b.2.2))

instance : DecidableRel meanLE :=
  fun a b => inferInstanceAs (Decidable (a.2.1 * b.2.2 ≤ b.2.1 * a.2.2))

/-- Sorting by mean (source lines 300-303).  Python compares sort_by with
equality that never raises, and any value other than the string highest
selects the ascending branch.  The pandas quicksort tie order is
implementation defined; the model uses a stable sort, which no claim
depends on. -/
def reorderSortedL (d : Datasets) (sort_by : JValue) : List (Nat × Nat × Nat) :=
  if jEqStr sort_by "highest" then List.insertionSort meanGE (reorderFiltered d)
  else List.insertionSort meanLE (reorderFiltered d)

/-- Mapping the limited groups to name, reordered sum and count, then
building the Python result dict keyed by product name (source lines
306-311): a duplicate name keeps its first position and takes the later
value. -/
def reorderEntries (d : Datasets) (sort_by : JValue) (n : Int) :
    List (String × Nat × Nat) :=
  pyDict ((pdHead n (reorderSortedL d sort_by)).map
    (fun g => (nameOf d g.1, g.2.1, g.2.2)))

/-- Names of the limited groups in ranked order, before dict collapse. -/
def selectedNames (d : Datasets) (sort_by : JValue) (n : Int) : List String :=
  (pdHead n (reorderSortedL d sort_by)).map (fun g => nameOf d g.1)

/-- Products dictionary of the reorder-stats payload: reorder_rate is the
exact value 100*sum/count that the source rounds into a float. -/
def reorderProductsJ (entries : List (String × Nat × Nat)) : JValue :=
  JValue.obj (entries.map (fun e =>
    (e.1,
     JValue.obj
       [("reorder_rate", JValue.rat (100 * (e.2.1 : Int)) e.2.2),
        ("total_orders", JValue.int (e.2.2 : Int))])))

/-- _get_reorder_stats (source lines 291-315). -/
def _get_reorder_stats (d : Datasets) (sort_by limit : JValue) :
    Except PyError JValue :=
  if d.hasReordered = false then Except.ok (errObj "Reorder data not available")
  else
    match limit with
    | JValue.int n =>
        Except.ok (JValue.obj
          [("sort_by", sort_by),
           ("products", reorderProductsJ (reorderEntries d sort_by n))])
    | _ => Except.error (PyError.typeError headMsg)

/-- Output filename of a visualization; the timestamp field stands for the
datetime.now format string of source line 385. -/
def visFilename (d : Datasets) (data_source : JValue) : String :=
  "visualizations/" ++ pyStr data_source ++ "_" ++ d.timestamp ++ ".png"

/-- Success payload of _create_visualization (source lines 390-395). -/
def visSuccess (d : Datasets) (data_source : JValue) (points : Nat) : JValue :=
  JValue.obj
    [("success", JValue.bool true),
     ("filepath", JValue.str (visFilename d data_source)),
     ("message", JValue.str ("Visualization saved to " ++ visFilename d data_source)),
     ("data_points", JValue.int (points : Int))]

/-- Test for the error key of a payload dictionary (the in operator of
source lines 326 and 332). -/
def jHasError (v : JValue) : Bool :=
  match v with
  | JValue.obj l => l.any (fun p => p.1 = "error")
  | _ => false

/-- Length of the dictionary stored under a key of a payload. -/
def jObjLen (v : JValue) (k : String) : Nat :=
  match v with
  | JValue.obj l =>
      match pyLookup l k with
      | some (JValue.obj m) => m.length
      | _ => 0
  | _ => 0

/-- Department order counts for the department_comparison data source
(source lines 344-348): each order row mapped through both merges to its
department name, then value_counts. -/
def deptComparisonCounts (d : Datasets) (depts : List DepartmentRow) :
    List (String × Nat) :=
  valueCounts (d.order_products.filterMap (fun r =>
    (d.products.find? (fun p => p.product_id == r.product_id)).bind
      (fun p => (depts.find? (fun dr => dr.department_id == p.department_id)).map
        (fun dr => dr.department))))

/-- _create_visualization (source lines 317-395).  The chart_type and
title arguments feed only the matplotlib rendering, which the spec
excludes from scope, so the model keeps them unused; only the data path
and the returned payload are embedded. -/
def _create_visualization (d : Datasets) (_chart_type data_source _title : JValue)
    (limit : JValue) (department_filter : Option JValue) : Except PyError JValue :=
  if jEqStr data_source "top_products" then
    match _get_top_products d department_filter limit with
    | Except.error e => Except.error e
    | Except.ok data =>
        if jHasError data then Except.ok data
        else Except.ok (visSuccess d data_source (jObjLen data "top_products"))
  else if jEqStr data_source "reorder_rates" then
    match _get_reorder_stats d (JValue.str "highest") limit with
    | Except.error e => Except.error e
    | Except.ok data =>
        if jHasError data then Except.ok data
        else Except.ok (visSuccess d data_source (jObjLen data "products"))
  else if jEqStr data_source "department_comparison" then
    match d.departments with
    | none => Except.ok (errObj "Department data not available")
    | some depts =>
        match limit with
        | JValue.int n =>
            Except.ok (visSuccess d data_source (pdHead n (deptComparisonCounts d depts)).length)
        | _ => Except.error (PyError.typeError headMsg)
  else Except.ok (errObj ("Unknown data source: " ++ pyStr data_source))

/-- _execute_tool (source lines 153-188): the name is compared against the
fixed chain of tool names; required fields are read with raising subscript
access, optional ones with dict.get and the defaults of the source; an
unmatched name falls through to the unknown-tool error payload.  No
exception handling surrounds any call. -/
def _execute_tool (d : Datasets) (tool_name : String)
    (tool_input : List (String × JValue)) : Except PyError JValue :=
  if tool_name = "get_user_orders" then
    match getItem tool_input "user_id" with
    | Except.error e => Except.error e
    | Except.ok v => _get_user_orders d v
  else if tool_name = "analyze_product" then
    match getItem tool_input "product_name" with
    | Except.error e => Except.error e
    | Except.ok v => _analyze_product d v
  else if tool_name = "get_top_products" then
    _get_top_products d (pyLookup tool_input "department")
      (pyGetD tool_input "limit" (JValue.int 10))
  else if tool_name = "analyze_department" then
    match getItem tool_input "department_name" with
    | Except.error e => Except.error e
    | Except.ok v => _analyze_department d v
  else if tool_name = "find_product_pairs" then
    match getItem tool_input "product_name" with
    | Except.error e => Except.error e
    | Except.ok v => _find_product_pairs d v (pyGetD tool_input "limit" (JValue.int 5))
  else if tool_name = "get_reorder_stats" then
    match getItem tool_input "sort_by" with
    | Except.error e => Except.error e
    | Except.ok v => _get_reorder_stats d v (pyGetD tool_input "limit" (JValue.int 10))
  else if tool_name = "create_visualization" then
    match getItem tool_input "chart_type" with
    | Except.error e => Except.error e
    | Except.ok ct =>
        match getItem tool_input "data_source" with
        | Except.error e => Except.error e
        | Except.ok ds =>
            match getItem tool_input "title" with
            | Except.error e => Except.error e
            | Except.ok t =>
                _create_visualization d ct ds t
                  (pyGetD tool_input "limit" (JValue.int 10))
                  (pyLookup tool_input "department_filter")
  else Except.ok (errObj ("Unknown tool: " ++ tool_name))

/-- Schema entry of one tool (source _define_tools): field names with their
declared types, plus the required list. -/
structure ToolDefinition where
  name : String
  description : String
  properties : List (String × String)
  required : List String
deriving DecidableEq

/-- The static tool catalog (source lines 20-151). -/
def toolCatalog : List ToolDefinition :=
  [{ name := "get_user_orders",
     description := "Get order history and shopping patterns for a specific user ID",
     properties := [("user_id", "integer")],
     required := ["user_id"] },
   { name := "analyze_product",
     description := "Get statistics and insights about a specific product or product name pattern",
     properties := [("product_name", "string")],
     required := ["product_name"] },
   { name := "get_top_products",
     description := "Get the most frequently ordered products, optionally filtered by department",
     properties := [("department", "string"), ("limit", "integer")],
     required := [] },
   { name := "analyze_department",
     description := "Get statistics about a department performance and popular products",
     properties := [("department_name", "string")],
     required := ["department_name"] },
   { name := "find_product_pairs",
     description := "Find products frequently bought together (market basket analysis)",
     properties := [("product_name", "string"), ("limit", "integer")],
     required := ["product_name"] },
   { name := "get_reorder_stats",
     description := "Get reorder statistics - which products have highest/lowest reorder rates",
     properties := [("sort_by", "string"), ("limit", "integer")],
     required := ["sort_by"] },
   { name := "create_visualization",
     description := "Create a chart or graph to visualize data. Returns the filepath of the saved image.",
     properties :=
       [("chart_type", "string"), ("data_source", "string"), ("title", "string"),
        ("limit", "integer"), ("department_filter", "string")],
     required := ["chart_type", "data_source", "title"] }]

/-- Escape of one character inside a JSON string literal (quote and
backslash; json.dumps also escapes control characters, which the
payloads of this program never contain). -/
def jEscChar (c : Char) : String :=
  if c = Char.ofNat 34 then "\\\""
  else if c = Char.ofNat 92 then "\\\\"
  else String.singleton c

/-- Escaped body of a JSON string literal. -/
def jEsc (s : String) : String := String.join (s.data.map jEscChar)

mutual

/-- json.dumps of a payload value.  Numeric pairs print as num/den, where
the source prints a decimal float; no claim inspects that formatting. -/
def jdump : JValue → String
  | JValue.str s => "\"" ++ jEsc s ++ "\""
  | JValue.int n => toString n
  | JValue.rat num den => toString num ++ "/" ++ toString den
  | JValue.bool b => if b then "true" else "false"
  | JValue.null => "null"
  | JValue.arr items => "[" ++ jdumpItems items ++ "]"
  | JValue.obj fields => "\x7b" ++ jdumpFields fields ++ "\x7d"

/-- Comma-separated dump of array items. -/
def jdumpItems : List JValue → String
  | [] => ""
  | [v] => jdump v
  | v :: rest => jdump v ++ ", " ++ jdumpItems rest

/-- Comma-separated dump of object fields. -/
def jdumpFields : List (String × JValue) → String
  | [] => ""
  | [p] => "\"" ++ jEsc p.1 ++ "\": " ++ jdump p.2
  | p :: rest => "\"" ++ jEsc p.1 ++ "\": " ++ jdump p.2 ++ ", " ++ jdumpFields rest

end

/-- Role of a conversation message. -/
inductive Role where
  | user
  | assistant
deriving DecidableEq

/-- Content block of a stored message, as the source builds them:
dictionaries with a type tag (source lines 424-435 and 454-458). -/
inductive Block where
  | text (s : String)
  | tool_use (id : String) (name : String) (input : List (String × JValue))
  | tool_result (tool_use_id : String) (content : String)

/-- Message content: the user question is stored as a bare string, every
other message as a list of blocks. -/
inductive MsgContent where
  | str (s : String)
  | blocks (l : List Block)

/-- One entry of conversation_history. -/
structure Message where
  role : Role
  content : MsgContent

/-- A content block of one LLM completion (the anthropic response). -/
inductive RespBlock where
  | text (s : String)
  | tool_use (id : String) (name : String) (input : List (String × JValue))

/-- One LLM completion: content blocks plus the stop_reason string the
source compares against tool_use. -/
structure LLMResponse where
  content : List RespBlock
  stop_reason : String

/-- One requested tool invocation of a batch. -/
structure ToolUseReq where
  id : String
  name : String
  input : List (String × JValue)

/-- One dispatched result: the matched id and the serialized payload
(source lines 454-458). -/
structure ToolResult where
  tool_use_id : String
  content : String

/-- Response blocks stored into the assistant message, in emission order
(tool_use blocks and text blocks alike, source lines 422-435). -/
def respToBlock (b : RespBlock) : Block :=
  match b with
  | RespBlock.text s => Block.text s
  | RespBlock.tool_use i n inp => Block.tool_use i n inp

/-- The tool_use blocks of a completion, in emission order: the invocation
batch of that assistant turn. -/
def toolUses (content : List RespBlock) : List ToolUseReq :=
  content.filterMap (fun b =>
    match b with
    | RespBlock.tool_use i n inp => some (ToolUseReq.mk i n inp)
    | _ => none)

/-- Text pieces of a completion (the hasattr text test of the source). -/
def finalTexts (content : List RespBlock) : List String :=
  content.filterMap (fun b =>
    match b with
    | RespBlock.text s => some s
    | _ => none)

/-- Sequential dispatch of one batch (source lines 444-458): each
invocation is executed and serialized in order; the first raised exception
aborts the loop and propagates, leaving no result batch at all. -/
def dispatchBatch (d : Datasets) : List ToolUseReq → Except PyError (List ToolResult)
  | [] => Except.ok []
  | tu :: rest =>
      match _execute_tool d tu.name tu.input with
      | Except.error e => Except.error e
      | Except.ok v =>
          match dispatchBatch d rest with
          | Except.error e => Except.error e
          | Except.ok rs => Except.ok (ToolResult.mk tu.id (jdump v) :: rs)

/-- The stored user question message. -/
def userTextMsg (q : String) : Message := Message.mk Role.user (MsgContent.str q)

/-- The stored assistant message holding the given blocks. -/
def assistantMsg (l : List Block) : Message := Message.mk Role.assistant (MsgContent.blocks l)

/-- The stored user message carrying one result batch. -/
def toolResultsMsg (rs : List ToolResult) : Message :=
  Message.mk Role.user
    (MsgContent.blocks (rs.map (fun r => Block.tool_result r.tool_use_id r.content)))

/-- The returned answer string: the concatenated text blocks, or the
fallback literal when that concatenation is empty (source line 492). -/
def finalAnswer (texts : List String) : String :=
  if String.join texts = "" then "No response generated" else String.join texts

/-- Outcome of one ask call over a finite response script.  ok carries the
returned answer and the history after the call; raised models a Python
exception escaping ask, with the history as mutated so far; noResponse is
the modelling artifact of an exhausted script (the real service always
answers, so a run is observed only up to finitely many completions). -/
inductive AskResult where
  | ok (answer : String) (hist : List Message)
  | raised (e : PyError) (hist : List Message)
  | noResponse (hist : List Message)

/-- The tool-use loop of ask (source lines 417-492): while the stop reason
is tool_use, append the assistant message, dispatch the batch, append the
matching results message and take the next completion; otherwise collect
the text blocks, append the final assistant message and return the
answer. -/
def askLoop (d : Datasets) : List LLMResponse → List Message → AskResult
  | [], hist => AskResult.noResponse hist
  | resp :: rest, hist =>
      if resp.stop_reason = "tool_use" then
        match dispatchBatch d (toolUses resp.content) with
        | Except.error e =>
            AskResult.raised e (hist ++ [assistantMsg (resp.content.map respToBlock)])
        | Except.ok results =>
            askLoop d rest
              ((hist ++ [assistantMsg (resp.content.map respToBlock)]) ++
                [toolResultsMsg results])
      else
        AskResult.ok (finalAnswer (finalTexts resp.content))
          (hist ++ [assistantMsg ((finalTexts resp.content).map Block.text)])

/-- ask (source lines 397-492): append the user question, then run the
loop against the completion script.  The source method mutates
self.conversation_history and returns the answer string; the model returns
both. -/
def ask (d : Datasets) (script : List LLMResponse) (hist : List Message)
    (question : String) : AskResult :=
  askLoop d script (hist ++ [userTextMsg question])

/-- The answer of a completed ask call, when it completed. -/
def askAnswer (r : AskResult) : Option String :=
  match r with
  | AskResult.ok a _ => some a
  | _ => none

/-- Ids of the tool_use blocks of a block list. -/
def blockToolUseIds (l : List Block) : List String :=
  l.filterMap (fun b =>
    match b with
    | Block.tool_use i _ _ => some i
    | _ => none)

/-- Ids of the tool_use blocks of an assistant message (a user message,
or a bare-string message, has none). -/
def msgToolUseIds (m : Message) : List String :=
  match m.role, m.content with
  | Role.assistant, MsgContent.blocks l => blockToolUseIds l
  | _, _ => []

/-- Whether a message is an assistant message containing tool_use blocks,
the case the alternation invariant constrains. -/
def needsMatch (m : Message) : Bool := !(msgToolUseIds m).isEmpty

/-- Whether a block is a tool_result block. -/
def isToolResultB (b : Block) : Bool :=
  match b with
  | Block.tool_result _ _ => true
  | _ => false

/-- Ids carried by the tool_result blocks of a block list. -/
def resultIds (l : List Block) : List String :=
  l.filterMap (fun b =>
    match b with
    | Block.tool_result i _ => some i
    | _ => none)

/-- Order-independent set equality of two id lists. -/
def idSetEq (a b : List String) : Bool :=
  a.all (fun x => b.elem x) && b.all (fun x => a.elem x)

/-- Whether the second message completes the tool turn opened by the
first: a user message whose content is exactly tool_result blocks whose
id set equals the tool_use id set of the first message. -/
def isMatched (m follower : Message) : Bool :=
  match follower.role, follower.content with
  | Role.user, MsgContent.blocks l =>
      l.all isToolResultB && idSetEq (resultIds l) (msgToolUseIds m)
  | _, _ => false

/-- The history alternation invariant of the spec: every assistant message
containing tool_use blocks is immediately followed by its matching
tool_result user message, and no such message ends the history. -/
def alternationInv : List Message → Bool
  | [] => true
  | [m] => !needsMatch m
  | m :: m2 :: rest => (!needsMatch m || isMatched m m2) && alternationInv (m2 :: rest)

/-- Whether a completion block is a text block. -/
def isTextB (b : RespBlock) : Bool :=
  match b with
  | RespBlock.text _ => true
  | _ => false

/-- Rate of entry a is at least rate of entry b, on the exact rational
reorder rates (sum over count) of the payload entries. -/
def entryRateGE (a b : String × Nat × Nat) : Prop :=
  (b.2.1 : ℚ) / (b.2.2 : ℚ) ≤ (a.2.1 : ℚ) / (a.2.2 : ℚ)

/-- Rate of entry a is at most rate of entry b. -/
def entryRateLE (a b : String × Nat × Nat) : Prop := entryRateGE b a

/-- The tool input _execute_tool receives for a get_top_products call with
an optional department string and an integer limit. -/
def topInput (dep : Option String) (lim : Int) : List (String × JValue) :=
  (match dep with
   | some s => [("department", JValue.str s)]
   | none => []) ++ [("limit", JValue.int lim)]

/-- Empty dataset snapshot. -/
def dEmpty : Datasets :=
  { orders := [], order_products := [], products := [], departments := none,
    hasReordered := false, timestamp := "" }

/-- Snapshot holding one product named Banana, enough to drive
_find_product_pairs into its raising branch. -/
def dBan : Datasets :=
  { orders := [], order_products := [],
    products := [ProductRow.mk 24852 "Banana" 4], departments := none,
    hasReordered := false, timestamp := "" }

/-- Snapshot with three products of which two share the name X, with ten
order rows each: reordered sums 9, 8 and 7 give means 0.9, 0.8 and 0.7. -/
def dDup : Datasets :=
  { orders := [],
    order_products :=
      List.replicate 9 (OrderProductRow.mk 0 1 1) ++ [OrderProductRow.mk 0 1 0] ++
      List.replicate 8 (OrderProductRow.mk 0 2 1) ++ List.replicate 2 (OrderProductRow.mk 0 2 0) ++
      List.replicate 7 (OrderProductRow.mk 0 3 1) ++ List.replicate 3 (OrderProductRow.mk 0 3 0),
    products := [ProductRow.mk 1 "X" 1, ProductRow.mk 2 "B" 1, ProductRow.mk 3 "X" 1],
    departments := none, hasReordered := true, timestamp := "" }

/-- Snapshot with two distinctly named products, ten order rows each,
reordered sums 6 and 3. -/
def dRW : Datasets :=
  { orders := [],
    order_products :=
      List.replicate 6 (OrderProductRow.mk 0 1 1) ++ List.replicate 4 (OrderProductRow.mk 0 1 0) ++
      List.replicate 3 (OrderProductRow.mk 0 2 1) ++ List.replicate 7 (OrderProductRow.mk 0 2 0),
    products := [ProductRow.mk 1 "A" 1, ProductRow.mk 2 "B" 1],
    departments := none, hasReordered := true, timestamp := "" }

/-- A completion that requests one unknown tool, keeping the loop going. -/
def nopResp : LLMResponse :=
  LLMResponse.mk [RespBlock.tool_use "t1" "nop" []] "tool_use"

/-- A final completion carrying the text done. -/
def doneResp : LLMResponse :=
  LLMResponse.mk [RespBlock.text "done"] "end_turn"

/-- Valid input for find_product_pairs naming the Banana product. -/
def pairsReq : List (String × JValue) := [("product_name", JValue.str "Banana")]

/-- A completion requesting find_product_pairs on Banana. -/
def pairsResp : LLMResponse :=
  LLMResponse.mk [RespBlock.tool_use "t1" "find_product_pairs" pairsReq] "tool_use"

/-- Batch of two unknown-tool invocations with distinct ids. -/
def nopBatch : List ToolUseReq :=
  [ToolUseReq.mk "a" "nop" [], ToolUseReq.mk "b" "nop" []]

/-- The results the dispatcher produces for nopBatch. -/
def nopResults : List ToolResult :=
  [ToolResult.mk "a" (jdump (errObj ("Unknown tool: " ++ "nop"))),
   ToolResult.mk "b" (jdump (errObj ("Unknown tool: " ++ "nop")))]

/-- Two-turn script: one unknown-tool request, then a final text. -/
def scriptW : List LLMResponse :=
  [LLMResponse.mk [RespBlock.tool_use "t9" "nop" []] "tool_use",
   LLMResponse.mk [RespBlock.text "hi"] "end_turn"]

/-- The history ask builds for scriptW from an empty history. -/
def histW : List Message :=
  [userTextMsg "q",
   assistantMsg [Block.tool_use "t9" "nop" []],
   toolResultsMsg [ToolResult.mk "t9" (jdump (errObj ("Unknown tool: " ++ "nop")))],
   assistantMsg [Block.text "hi"]]

theorem dispatchBatch_ids (d : Datasets) :
    ∀ (batch : List ToolUseReq) (rs : List ToolResult),
      dispatchBatch d batch = Except.ok rs →
      rs.map ToolResult.tool_use_id = batch.map ToolUseReq.id := by
  intro batch
  induction batch with
  | nil =>
      intro rs h
      simp only [dispatchBatch, Except.ok.injEq] at h
      subst h
      rfl
  | cons tu rest ih =>
      intro rs h
      simp only [dispatchBatch] at h
      cases he : _execute_tool d tu.name tu.input with
      | error e => rw [he] at h; simp at h
      | ok v =>
          rw [he] at h
          cases hr : dispatchBatch d rest with
          | error e => rw [hr] at h; simp at h
          | ok rs2 =>
              rw [hr] at h
              simp only [Except.ok.injEq] at h
              subst h
              simp [ih rs2 hr]

theorem blockIds_of_resp (content : List RespBlock) :
    blockToolUseIds (content.map respToBlock) = (toolUses content).map ToolUseReq.id := by
  induction content with
  | nil => rfl
  | cons b rest ih =>
      simp only [blockToolUseIds, toolUses] at ih
      cases b with
      | text s =>
          simp only [blockToolUseIds, toolUses, List.map_cons, List.filterMap_cons,
            respToBlock]
          exact ih
      | tool_use i n inp =>
          simp only [blockToolUseIds, toolUses, List.map_cons, List.filterMap_cons,
            respToBlock]
          rw [ih]

theorem blockIds_of_text (texts : List String) :
    blockToolUseIds (texts.map Block.text) = [] := by
  induction texts with
  | nil => rfl
  | cons t rest ih => simp [blockToolUseIds, List.filterMap_cons, ih]

theorem resultIds_map (rs : List ToolResult) :
    resultIds (rs.map (fun r => Block.tool_result r.tool_use_id r.content)) =
      rs.map ToolResult.tool_use_id := by
  induction rs with
  | nil => rfl
  | cons r rest ih =>
      simp only [resultIds] at ih
      simp only [resultIds, List.map_cons, List.filterMap_cons]
      rw [ih]

theorem all_toolResultB (rs : List ToolResult) :
    (rs.map (fun r => Block.tool_result r.tool_use_id r.content)).all isToolResultB = true := by
  induction rs with
  | nil => rfl
  | cons r rest ih => simp [isToolResultB, ih]

theorem idSetEq_self (a : List String) : idSetEq a a = true := by
  simp [idSetEq, List.all_eq_true, List.elem_iff]

theorem needsMatch_user (q : String) : needsMatch (userTextMsg q) = false := rfl

theorem needsMatch_results (rs : List ToolResult) :
    needsMatch (toolResultsMsg rs) = false := rfl

theorem needsMatch_text (texts : List String) :
    needsMatch (assistantMsg (texts.map Block.text)) = false := by
  simp [needsMatch, msgToolUseIds, assistantMsg, blockIds_of_text]

theorem isMatched_toolResults (bl : List Block) (rs : List ToolResult)
    (hids : idSetEq (rs.map ToolResult.tool_use_id) (blockToolUseIds bl) = true) :
    isMatched (assistantMsg bl) (toolResultsMsg rs) = true := by
  simp only [isMatched, assistantMsg, toolResultsMsg]
  rw [resultIds_map]
  simp only [msgToolUseIds]
  rw [all_toolResultB, hids]
  rfl

theorem inv_append_one :
    ∀ (l : List Message) (m : Message),
      alternationInv l = true → needsMatch m = false →
      alternationInv (l ++ [m]) = true := by
  intro l
  induction l with
  | nil =>
      intro m h1 h2
      simpa [alternationInv] using h2
  | cons x rest ih =>
      intro m h1 h2
      cases rest with
      | nil =>
          simp only [alternationInv] at h1
          simp [alternationInv, h1, h2]
      | cons y rest2 =>
          simp only [alternationInv, Bool.and_eq_true] at h1
          simp only [List.cons_append, alternationInv, Bool.and_eq_true]
          exact ⟨h1.1, ih m h1.2 h2⟩

theorem inv_append_two :
    ∀ (l : List Message) (m m2 : Message),
      alternationInv l = true →
      (!needsMatch m || isMatched m m2) = true →
      needsMatch m2 = false →
      alternationInv (l ++ [m, m2]) = true := by
  intro l
  induction l with
  | nil =>
      intro m m2 h1 hj h2
      simp [alternationInv, hj, h2]
  | cons x rest ih =>
      intro m m2 h1 hj h2
      cases rest with
      | nil =>
          simp only [alternationInv] at h1
          simp [alternationInv, h1, hj, h2]
      | cons y rest2 =>
          simp only [alternationInv, Bool.and_eq_true] at h1
          simp only [List.cons_append, alternationInv, Bool.and_eq_true]
          exact ⟨h1.1, ih m m2 h1.2 hj h2⟩

theorem askLoop_inv (d : Datasets) :
    ∀ (script : List LLMResponse) (hist : List Message),
      alternationInv hist = true →
      ∀ (a : String) (h2 : List Message),
        askLoop d script hist = AskResult.ok a h2 → alternationInv h2 = true := by
  intro script
  induction script with
  | nil =>
      intro hist hinv a h2 h
      simp [askLoop] at h
  | cons resp rest ih =>
      intro hist hinv a h2 h
      simp only [askLoop] at h
      by_cases hs : resp.stop_reason = "tool_use"
      · rw [if_pos hs] at h
        cases hd : dispatchBatch d (toolUses resp.content) with
        | error e => rw [hd] at h; simp at h
        | ok results =>
            rw [hd] at h
            refine ih _ ?_ a h2 h
            have hids : results.map ToolResult.tool_use_id =
                (toolUses resp.content).map ToolUseReq.id := dispatchBatch_ids d _ _ hd
            have hmatch :
                isMatched (assistantMsg (resp.content.map respToBlock))
                  (toolResultsMsg results) = true := by
              apply isMatched_toolResults
              rw [hids, blockIds_of_resp]
              exact idSetEq_self _
            have hstep := inv_append_two hist
              (assistantMsg (resp.content.map respToBlock)) (toolResultsMsg results)
              hinv (by rw [hmatch]; simp) (needsMatch_results results)
            simpa [List.append_assoc] using hstep
      · rw [if_neg hs] at h
        simp only [AskResult.ok.injEq] at h
        rw [← h.2]
        exact inv_append_one hist _ hinv (needsMatch_text _)

theorem pyDictIns_fresh (acc : List (String × α)) (k : String) (v : α)
    (h : ∀ p ∈ acc, p.1 ≠ k) : pyDictIns acc k v = acc ++ [(k, v)] := by
  unfold pyDictIns
  rw [if_neg]
  simp only [List.any_eq_true, not_exists]
  intro p
  intro hcontra
  rcases hcontra with ⟨hp, he⟩
  exact h p hp (by simpa using he)

theorem pyDictAux_nodup :
    ∀ (l acc : List (String × α)),
      ((acc ++ l).map Prod.fst).Nodup → pyDictAux acc l = acc ++ l := by
  intro l
  induction l with
  | nil => intro acc _; simp [pyDictAux]
  | cons p rest ih =>
      intro acc h
      have hfresh : ∀ q ∈ acc, q.1 ≠ p.1 := by
        intro q hq
        rw [List.map_append, List.nodup_append] at h
        intro he
        exact h.2.2 (List.mem_map_of_mem Prod.fst hq)
          (by rw [he]; exact List.mem_map_of_mem Prod.fst (by simp))
      have hstep : pyDictAux acc (p :: rest) = pyDictAux (acc ++ [p]) rest := by
        simp only [pyDictAux]
        rw [pyDictIns_fresh acc p.1 p.2 hfresh]
      rw [hstep, ih (acc ++ [p]) (by simpa using h)]
      simp

theorem pyDict_nodup (l : List (String × α)) (h : (l.map Prod.fst).Nodup) :
    pyDict l = l := by
  have := pyDictAux_nodup l []
  simpa [pyDict] using this (by simpa using h)

theorem pairwise_orderedInsert_of (r : α → α → Prop) [DecidableRel r] (P : α → Prop)
    (htot : ∀ a b, r a b ∨ r b a)
    (htr : ∀ a b c, P b → r a b → r b c → r a c) :
    ∀ (x : α) (l : List α), P x → (∀ y ∈ l, P y) → l.Pairwise r →
      (List.orderedInsert r x l).Pairwise r := by
  intro x l
  induction l with
  | nil => intro _ _ _; simp
  | cons b t ih =>
      intro hx hl hp
      simp only [List.orderedInsert]
      by_cases hrb : r x b
      · rw [if_pos hrb]
        refine List.Pairwise.cons ?_ hp
        intro y hy
        rcases List.mem_cons.mp hy with h | h
        · rw [h]; exact hrb
        · exact htr x b y (hl b (by simp)) hrb ((List.pairwise_cons.mp hp).1 y h)
      · rw [if_neg hrb]
        have hbx : r b x := (htot x b).resolve_left hrb
        refine List.Pairwise.cons ?_
          (ih hx (fun y hy => hl y (by simp [hy])) (List.pairwise_cons.mp hp).2)
        intro y hy
        rcases (List.mem_orderedInsert r).mp hy with h | h
        · rw [h]; exact hbx
        · exact (List.pairwise_cons.mp hp).1 y h

theorem pairwise_insertionSort_of (r : α → α → Prop) [DecidableRel r] (P : α → Prop)
    (htot : ∀ a b, r a b ∨ r b a)
    (htr : ∀ a b c, P b → r a b → r b c → r a c) :
    ∀ (l : List α), (∀ y ∈ l, P y) → (List.insertionSort r l).Pairwise r := by
  intro l
  induction l with
  | nil => intro _; simp
  | cons x t ih =>
      intro hl
      simp only [List.insertionSort]
      refine pairwise_orderedInsert_of r P htot htr x _ (hl x (by simp)) ?_
        (ih (fun y hy => hl y (by simp [hy])))
      intro y hy
      exact hl y (List.mem_cons.mpr (Or.inr ((List.perm_insertionSort r t).mem_iff.mp hy)))

theorem meanGE_total : ∀ (a b : Nat × Nat × Nat), meanGE a b ∨ meanGE b a :=
  fun a b => le_total (b.2.1 * a.2.2) (a.2.1 * b.2.2)

theorem meanLE_total : ∀ (a b : Nat × Nat × Nat), meanLE a b ∨ meanLE b a :=
  fun a b => le_total (a.2.1 * b.2.2) (b.2.1 * a.2.2)

theorem meanGE_trans_mid :
    ∀ (a b c : Nat × Nat × Nat), 0 < b.2.2 → meanGE a b → meanGE b c → meanGE a c := by
  intro a b c hb h1 h2
  unfold meanGE at h1 h2 ⊢
  have k1 : (c.2.1 * a.2.2) * b.2.2 ≤ (a.2.1 * c.2.2) * b.2.2 := by
    calc (c.2.1 * a.2.2) * b.2.2 = (c.2.1 * b.2.2) * a.2.2 := by ring
    _ ≤ (b.2.1 * c.2.2) * a.2.2 := Nat.mul_le_mul_right _ h2
    _ = (b.2.1 * a.2.2) * c.2.2 := by ring
    _ ≤ (a.2.1 * b.2.2) * c.2.2 := Nat.mul_le_mul_right _ h1
    _ = (a.2.1 * c.2.2) * b.2.2 := by ring
  exact Nat.le_of_mul_le_mul_right k1 hb

theorem meanLE_trans_mid :
    ∀ (a b c : Nat × Nat × Nat), 0 < b.2.2 → meanLE a b → meanLE b c → meanLE a c := by
  intro a b c hb h1 h2
  exact meanGE_trans_mid c b a hb h2 h1

theorem posFiltered (d : Datasets) : ∀ g ∈ reorderFiltered d, 0 < g.2.2 := by
  intro g hg
  have h10 := (List.mem_filter.mp hg).2
  have : 10 ≤ g.2.2 := by simpa using h10
  omega

theorem pdHead_natCast (k : Nat) (l : List α) : pdHead (k : Int) l = l.take k := by
  simp [pdHead]

theorem entryRate_of_cross (a b : String × Nat × Nat)
    (ha : 0 < a.2.2) (hb : 0 < b.2.2) (h : b.2.1 * a.2.2 ≤ a.2.1 * b.2.2) :
    entryRateGE a b := by
  unfold entryRateGE
  rw [div_le_div_iff₀ (by exact_mod_cast hb) (by exact_mod_cast ha)]
  exact_mod_cast h

/-- C1 counterexample: an invocation of find_product_pairs whose catalog
name and required input are valid, and whose product matches, makes the
underlying operation raise a TypeError that the dispatcher does not
capture: ask ends in a raised state instead of producing a ToolResult with
an OperationError payload, refuting totality of the dispatcher boundary. -/
theorem operation_exception_escapes_cex :
    ask dBan [pairsResp] [] "q" =
      AskResult.raised (PyError.typeError pandasIsinMsg)
        [userTextMsg "q",
         assistantMsg [Block.tool_use "t1" "find_product_pairs" pairsReq]] := rfl

/-- C1 (amended): a domain failure that an operation detects is returned
as an error-message payload dictionary, which the dispatcher serializes
into the ToolResult without raising (here: analyze_product with a pattern
matching no product, uniformly in the dataset); but an exception actually
raised by an operation is not captured and propagates out of the
dispatcher and out of ask. -/
theorem domain_failure_becomes_payload (d : Datasets) (pat : String)
    (h : d.products.all (fun p => !containsCI pat p.product_name) = true) :
    _execute_tool d "analyze_product" [("product_name", JValue.str pat)] =
      Except.ok (errObj ("No products found matching \x27" ++ pat ++ "\x27")) := by
  have hfil : d.products.filter (fun p => containsCI pat p.product_name) = [] := by
    apply List.filter_eq_nil_iff.mpr
    intro p hp
    have hb := List.all_eq_true.mp h p hp
    simpa using hb
  have hred : _execute_tool d "analyze_product" [("product_name", JValue.str pat)] =
      _analyze_product d (JValue.str pat) := rfl
  rw [hred]
  unfold _analyze_product
  simp [hfil]

/-- C1 witness: the amended theorem applied to the empty snapshot and the
pattern zzz. -/
theorem domain_failure_becomes_payload_witness :
    dEmpty.products.all (fun p => !containsCI "zzz" p.product_name) = true ∧
      _execute_tool dEmpty "analyze_product" [("product_name", JValue.str "zzz")] =
        Except.ok (errObj ("No products found matching \x27" ++ "zzz" ++ "\x27")) :=
  ⟨rfl, domain_failure_becomes_payload dEmpty "zzz" rfl⟩

/-- C2 counterexample: invoking find_product_pairs with no product_name
raises KeyError out of the dispatcher; no ValidationError payload, or any
ToolResult at all, is produced. -/
theorem missing_field_raises_cex :
    _execute_tool dEmpty "find_product_pairs" [] =
      Except.error (PyError.keyError "product_name") := rfl

/-- C2 (amended): for every dataset and every input lacking product_name,
the find_product_pairs branch of the dispatcher raises KeyError naming the
missing field before the operation is reached; the source performs no
schema validation and produces no ValidationError payload. -/
theorem missing_field_keyerror (d : Datasets) (inp : List (String × JValue))
    (h : (pyLookup inp "product_name").isNone = true) :
    _execute_tool d "find_product_pairs" inp =
      Except.error (PyError.keyError "product_name") := by
  have hn : pyLookup inp "product_name" = none := Option.isNone_iff_eq_none.mp h
  have hred : _execute_tool d "find_product_pairs" inp =
      (match getItem inp "product_name" with
       | Except.error e => Except.error e
       | Except.ok v => _find_product_pairs d v (pyGetD inp "limit" (JValue.int 5))) := rfl
  rw [hred]
  unfold getItem
  rw [hn]

/-- C2 witness: the amended theorem applied to the singleton limit-only
input. -/
theorem missing_field_keyerror_witness :
    (pyLookup [("limit", JValue.int 5)] "product_name").isNone = true ∧
      _execute_tool dEmpty "find_product_pairs" [("limit", JValue.int 5)] =
        Except.error (PyError.keyError "product_name") :=
  ⟨rfl, missing_field_keyerror dEmpty [("limit", JValue.int 5)] rfl⟩

/-- C3 counterexample: a model that returns tool_use one hundred times in
a row and then a final text makes ask complete normally with that text;
no iteration bound fires and no ProtocolLimitExceeded condition exists in
the source. -/
theorem unbounded_loop_cex :
    askAnswer (ask dEmpty (List.replicate 100 nopResp ++ [doneResp]) [] "q") =
      some "done" := rfl

/-- C3 (amended): the tool-use loop of ask is unbounded: for every count
n, a script of n tool_use completions followed by a final text completes
with that text, for every dataset and starting history; the source
enforces no configurable maximum and has no ProtocolLimitExceeded
failure. -/
theorem tool_loop_unbounded (d : Datasets) (n : Nat) (hist : List Message) (q : String) :
    askAnswer (ask d (List.replicate n nopResp ++ [doneResp]) hist q) = some "done" := by
  unfold ask
  generalize hist ++ [userTextMsg q] = h0
  induction n generalizing h0 with
  | zero => rfl
  | succ k ih =>
      rw [List.replicate_succ, List.cons_append]
      exact ih _

/-- C4 counterexample: a batch of size one whose single invocation raises
(get_user_orders without user_id) yields no ToolResultBatch at all — the
exception aborts the dispatch loop — rather than one ToolResult per input
id. -/
theorem dispatch_no_result_on_exception_cex :
    dispatchBatch dEmpty [ToolUseReq.mk "t1" "get_user_orders" []] =
      Except.error (PyError.keyError "user_id") := rfl

/-- C4 (amended): whenever the dispatch loop completes without an
exception, it returns exactly one result per invocation with the
tool_use_id values preserved verbatim in batch order, hence each input id
exactly once when the input ids are distinct; when any invocation raises,
no result batch is produced. -/
theorem dispatch_preserves_ids (d : Datasets) (batch : List ToolUseReq)
    (rs : List ToolResult) (h : dispatchBatch d batch = Except.ok rs) :
    rs.map ToolResult.tool_use_id = batch.map ToolUseReq.id ∧
      ((batch.map ToolUseReq.id).Nodup →
        ∀ i ∈ batch.map ToolUseReq.id, (rs.map ToolResult.tool_use_id).count i = 1) := by
  have hids := dispatchBatch_ids d batch rs h
  exact ⟨hids, fun hnd i hi => by rw [hids]; exact List.count_eq_one_of_mem hnd hi⟩

/-- C4 witness: the amended theorem applied to a two-invocation batch with
distinct ids. -/
theorem dispatch_preserves_ids_witness :
    dispatchBatch dEmpty nopBatch = Except.ok nopResults ∧
      (nopResults.map ToolResult.tool_use_id = nopBatch.map ToolUseReq.id ∧
        ((nopBatch.map ToolUseReq.id).Nodup →
          ∀ i ∈ nopBatch.map ToolUseReq.id,
            (nopResults.map ToolResult.tool_use_id).count i = 1)) :=
  ⟨rfl, dispatch_preserves_ids dEmpty nopBatch nopResults rfl⟩

/-- C5: the history alternation invariant is preserved by every completed
ask call: if the starting history satisfies it, so does the history after
ask returns an answer — every assistant message holding tool_use blocks is
immediately followed by a user message consisting exactly of tool_result
blocks whose id set equals the tool_use id set. -/
theorem ask_preserves_alternation (d : Datasets) (script : List LLMResponse)
    (hist : List Message) (q : String) (a : String) (h2 : List Message)
    (hinv : alternationInv hist = true)
    (h : ask d script hist q = AskResult.ok a h2) : alternationInv h2 = true := by
  refine askLoop_inv d script (hist ++ [userTextMsg q]) ?_ a h2 h
  exact inv_append_one hist (userTextMsg q) hinv (needsMatch_user q)

/-- C5 witness: a run with one tool turn and one final turn, starting from
the empty history. -/
theorem ask_preserves_alternation_witness :
    alternationInv [] = true ∧
      ask dEmpty scriptW [] "q" = AskResult.ok "hi" histW ∧
      alternationInv histW = true :=
  ⟨rfl, rfl, ask_preserves_alternation dEmpty scriptW [] "q" "hi" histW rfl rfl⟩

/-- C6: every tool name outside the catalog produces, uniformly in the
dataset and the input, the unknown-tool error payload carrying the
offending name; no operation runs and no exception escapes. -/
theorem unknown_tool_payload (d : Datasets) (tool_name : String)
    (inp : List (String × JValue))
    (h : ¬ tool_name ∈ toolCatalog.map ToolDefinition.name) :
    _execute_tool d tool_name inp =
      Except.ok (errObj ("Unknown tool: " ++ tool_name)) := by
  have h1 : tool_name ≠ "get_user_orders" := fun e => h (by rw [e]; decide)
  have h2 : tool_name ≠ "analyze_product" := fun e => h (by rw [e]; decide)
  have h3 : tool_name ≠ "get_top_products" := fun e => h (by rw [e]; decide)
  have h4 : tool_name ≠ "analyze_department" := fun e => h (by rw [e]; decide)
  have h5 : tool_name ≠ "find_product_pairs" := fun e => h (by rw [e]; decide)
  have h6 : tool_name ≠ "get_reorder_stats" := fun e => h (by rw [e]; decide)
  have h7 : tool_name ≠ "create_visualization" := fun e => h (by rw [e]; decide)
  simp [_execute_tool, h1, h2, h3, h4, h5, h6, h7]

/-- C6 witness: the theorem applied to the name frobnicate. -/
theorem unknown_tool_payload_witness :
    (¬ "frobnicate" ∈ toolCatalog.map ToolDefinition.name) ∧
      _execute_tool dEmpty "frobnicate" [] =
        Except.ok (errObj ("Unknown tool: " ++ "frobnicate")) :=
  ⟨by decide, unknown_tool_payload dEmpty "frobnicate" [] (by decide)⟩

/-- C7: find_product_pairs raises TypeError for a product name that does
match a product (here Banana), because source line 278 references the
unique method without calling it and the method object is then passed to
isin; the operation never returns the claimed co-occurrence mapping. -/
theorem find_product_pairs_raises :
    _execute_tool dBan "find_product_pairs" [("product_name", JValue.str "Banana")] =
      Except.error (PyError.typeError pandasIsinMsg) := rfl

/-- C9: dispatching get_top_products twice with identical department and
limit arguments in one batch yields two results with identical serialized
payloads (same ranked mapping, same entry order), for every dataset
snapshot. -/
theorem get_top_products_deterministic (d : Datasets) (dep : Option String)
    (lim : Int) (i1 i2 : String) :
    ∃ c, dispatchBatch d
        [ToolUseReq.mk i1 "get_top_products" (topInput dep lim),
         ToolUseReq.mk i2 "get_top_products" (topInput dep lim)] =
      Except.ok [ToolResult.mk i1 c, ToolResult.mk i2 c] := by
  cases dep with
  | none => exact ⟨_, rfl⟩
  | some s => exact ⟨_, rfl⟩

/-- C10: when the final completion contains no text blocks, ask returns
the literal No response generated and still appends an assistant message
with empty content. -/
theorem empty_final_response_literal (d : Datasets) (hist : List Message) (q : String)
    (content : List RespBlock) (sr : String) (h1 : sr ≠ "tool_use")
    (h2 : content.all (fun b => !isTextB b) = true) :
    ask d [LLMResponse.mk content sr] hist q =
      AskResult.ok "No response generated" (hist ++ [userTextMsg q, assistantMsg []]) := by
  have htx : finalTexts content = [] := by
    apply List.filterMap_eq_nil_iff.mpr
    intro b hb
    have hball := List.all_eq_true.mp h2 b hb
    cases b with
    | text s => simp [isTextB] at hball
    | tool_use i n inp => rfl
  have hred : ask d [LLMResponse.mk content sr] hist q =
      (if sr = "tool_use" then
        (match dispatchBatch d (toolUses content) with
         | Except.error e =>
             AskResult.raised e
               ((hist ++ [userTextMsg q]) ++ [assistantMsg (content.map respToBlock)])
         | Except.ok results =>
             askLoop d []
               (((hist ++ [userTextMsg q]) ++ [assistantMsg (content.map respToBlock)]) ++
                 [toolResultsMsg results]))
      else
        AskResult.ok (finalAnswer (finalTexts content))
          ((hist ++ [userTextMsg q]) ++
            [assistantMsg ((finalTexts content).map Block.text)])) := rfl
  rw [hred, if_neg h1, htx, List.append_assoc]
  rfl

/-- C10 witness: a single empty final completion from an empty history. -/
theorem empty_final_response_literal_witness :
    ("end_turn" ≠ "tool_use") ∧
      (([] : List RespBlock).all (fun b => !isTextB b) = true) ∧
      ask dEmpty [LLMResponse.mk [] "end_turn"] [] "hi" =
        AskResult.ok "No response generated"
          ([] ++ [userTextMsg "hi", assistantMsg []]) :=
  ⟨by decide, rfl, empty_final_response_literal dEmpty [] "hi" [] "end_turn" (by decide) rfl⟩

/-- C8 counterexample: with two products sharing the name X (rates 0.9 and
0.7) around a product B (rate 0.8), the result dict keeps the first
position of X with the later, lower value, so the highest-first mapping
comes out as X at 70 percent before B at 80 percent — not sorted in the
requested direction. -/
theorem reorder_stats_unsorted_cex :
    ¬ (reorderEntries dDup (JValue.str "highest") 10).Pairwise entryRateGE := by
  intro hp
  rw [show reorderEntries dDup (JValue.str "highest") 10 =
      [("X", 7, 10), ("B", 8, 10)] from by decide] at hp
  have h12 := (List.pairwise_cons.mp hp).1 ("B", 8, 10) (by simp)
  unfold entryRateGE at h12
  norm_num at h12

/-- C8 (amended): for both sort directions and every nonnegative limit,
when the reordered column exists get_reorder_stats returns, without
raising, the ranked name-to-(reorder_rate, total_orders) mapping with at
most limit entries; and provided the selected products have pairwise
distinct names (so that the dict collapse of the source is the identity)
the entries are sorted by rate in the requested direction. -/
theorem reorder_stats_ranked (d : Datasets) (limit : Nat) (sb : String)
    (h1 : d.hasReordered = true)
    (h2 : sb = "highest" ∨ sb = "lowest")
    (h3 : (selectedNames d (JValue.str sb) (limit : Int)).Nodup) :
    _get_reorder_stats d (JValue.str sb) (JValue.int (limit : Int)) =
      Except.ok (JValue.obj
        [("sort_by", JValue.str sb),
         ("products", reorderProductsJ (reorderEntries d (JValue.str sb) (limit : Int)))]) ∧
    (reorderEntries d (JValue.str sb) (limit : Int)).length ≤ limit ∧
    (sb = "highest" →
      (reorderEntries d (JValue.str sb) (limit : Int)).Pairwise entryRateGE) ∧
    (sb = "lowest" →
      (reorderEntries d (JValue.str sb) (limit : Int)).Pairwise entryRateLE) := by
  have hkeys : ((pdHead (limit : Int) (reorderSortedL d (JValue.str sb))).map
      (fun g => (nameOf d g.1, g.2.1, g.2.2))).map Prod.fst =
      selectedNames d (JValue.str sb) (limit : Int) := by
    rw [List.map_map]
    rfl
  have hE : reorderEntries d (JValue.str sb) (limit : Int) =
      (pdHead (limit : Int) (reorderSortedL d (JValue.str sb))).map
        (fun g => (nameOf d g.1, g.2.1, g.2.2)) := by
    unfold reorderEntries
    refine pyDict_nodup _ ?_
    rw [hkeys]
    exact h3
  refine ⟨by simp [_get_reorder_stats, h1], ?_, ?_, ?_⟩
  · rw [hE, pdHead_natCast]
    simp only [List.length_map, List.length_take]
    exact min_le_left _ _
  · intro hsb
    subst hsb
    have hsl : reorderSortedL d (JValue.str "highest") =
        List.insertionSort meanGE (reorderFiltered d) := by
      simp [reorderSortedL, jEqStr]
    have hsort : (List.insertionSort meanGE (reorderFiltered d)).Pairwise meanGE :=
      pairwise_insertionSort_of meanGE (fun g => 0 < g.2.2) meanGE_total
        meanGE_trans_mid _ (posFiltered d)
    have htk : ((reorderSortedL d (JValue.str "highest")).take limit).Pairwise meanGE := by
      rw [hsl]
      exact hsort.sublist (List.take_sublist _ _)
    have hpos : ∀ g ∈ (reorderSortedL d (JValue.str "highest")).take limit, 0 < g.2.2 := by
      intro g hg
      apply posFiltered d
      have hg2 : g ∈ reorderSortedL d (JValue.str "highest") :=
        (List.take_sublist _ _).subset hg
      rw [hsl] at hg2
      exact (List.perm_insertionSort meanGE _).subset hg2
    rw [hE, pdHead_natCast, List.pairwise_map]
    exact htk.imp_of_mem (fun ha hb hab =>
      entryRate_of_cross _ _ (hpos _ ha) (hpos _ hb) hab)
  · intro hsb
    subst hsb
    have hsl : reorderSortedL d (JValue.str "lowest") =
        List.insertionSort meanLE (reorderFiltered d) := by
      simp [reorderSortedL, jEqStr]
    have hsort : (List.insertionSort meanLE (reorderFiltered d)).Pairwise meanLE :=
      pairwise_insertionSort_of meanLE (fun g => 0 < g.2.2) meanLE_total
        meanLE_trans_mid _ (posFiltered d)
    have htk : ((reorderSortedL d (JValue.str "lowest")).take limit).Pairwise meanLE := by
      rw [hsl]
      exact hsort.sublist (List.take_sublist _ _)
    have hpos : ∀ g ∈ (reorderSortedL d (JValue.str "lowest")).take limit, 0 < g.2.2 := by
      intro g hg
      apply posFiltered d
      have hg2 : g ∈ reorderSortedL d (JValue.str "lowest") :=
        (List.take_sublist _ _).subset hg
      rw [hsl] at hg2
      exact (List.perm_insertionSort meanLE _).subset hg2
    rw [hE, pdHead_natCast, List.pairwise_map]
    exact htk.imp_of_mem (fun ha hb hab =>
      entryRate_of_cross _ _ (hpos _ hb) (hpos _ ha) hab)

/-- C8 witness: the amended theorem applied to a snapshot of two
distinctly named products with ten orders each, highest first. -/
theorem reorder_stats_ranked_witness :
    dRW.hasReordered = true ∧
      ("highest" = "highest" ∨ "highest" = "lowest") ∧
      (selectedNames dRW (JValue.str "highest") (10 : Int)).Nodup ∧
      (_get_reorder_stats dRW (JValue.str "highest") (JValue.int (10 : Int)) =
          Except.ok (JValue.obj
            [("sort_by", JValue.str "highest"),
             ("products",
               reorderProductsJ (reorderEntries dRW (JValue.str "highest") (10 : Int)))]) ∧
        (reorderEntries dRW (JValue.str "highest") (10 : Int)).length ≤ 10 ∧
        ("highest" = "highest" →
          (reorderEntries dRW (JValue.str "highest") (10 : Int)).Pairwise entryRateGE) ∧
        ("highest" = "lowest" →
          (reorderEntries dRW (JValue.str "highest") (10 : Int)).Pairwise entryRateLE)) :=
  ⟨rfl, Or.inl rfl, by decide,
    reorder_stats_ranked dRW 10 "highest" rfl (Or.inl rfl) (by decide)⟩

end AgentModel
